import Mathlib

/-!
Shallow embedding of the Blender-rpc presence client
(`src/__init__.py` of stef1949/Blender-rpc).

The Python module keeps its state in module-level globals (`rpcConn`,
`lastConnectAttempt`) and performs effects through the vendored
`pypresence` transport, the pid marker file, and `bpy`.  The embedding
makes those explicit:

* `Globals` bundles the mutable globals; every operation maps a
  `Globals` to a new one.
* The environment of a single call (outcomes of transport attempts,
  the current clock value, the pid-file contents, the addon
  preferences, the `bpy` scene data) is passed as explicit inputs.
* Exceptions are modelled by the `PyExc` type; fallible operations
  return `Except PyExc _`, and an exception that the Python code does
  not catch shows up as a `.raised` outcome.
* The transport layer (`rpc.Presence`: `connect`, `update`, `clear`)
  is not under `src/`; following the specification it is modelled as
  fallible sends whose per-call outcomes are environment inputs, and
  each attempted send is recorded in a trace.
* Calls to the `log` helper are recorded as `LogEvent` values in the
  order they happen, independently of whether the `enableLogging`
  preference would actually print them.
-/

/-- Python exception classes that can arise in this module: the
`OSError`/`ValueError` raised by file access and `int`, and the
`pypresence` exception classes named in the `except` clauses of
`connectToDiscord`.  `otherError` stands for any other exception,
caught by the trailing `except Exception` clauses. -/
inductive PyExc where
  | osError
  | valueError
  | connectionTimeout
  | invalidID
  | discordNotFound
  | invalidPipe
  | discordError
  | otherError
deriving Repr, DecidableEq

/-- A `pypresence.Presence` handle.  Handles are distinguished by an
allocation counter so that replacing a connection is observable. -/
structure Conn where
  id : Nat
deriving Repr, DecidableEq

/-- One record per call of the `log` helper, identifying which log
call-site fired (`connectToDiscord` and `updatePresence` messages). -/
inductive LogEvent where
  | connectedLog
  | connectionFailedLog (attempt : Nat)
  | connectionAbortedLog
  | invalidIdLog
  | issuesLinkLog
  | discordNotFoundLog
  | invalidPipeLog
  | discordErrorLog
  | unknownErrorLog
  | updateFailedLog
  | updateUnknownErrorLog
deriving Repr, DecidableEq

/-- The module-level globals of `src/__init__.py` that the presence
client mutates, plus the trace of `log` calls. -/
structure Globals where
  rpcConn : Option Conn
  nextConnId : Nat
  lastConnectAttempt : Rat
  logs : List LogEvent
deriving Repr, DecidableEq

/-- Source constant `reconnectCooldown = 10.0` (seconds). -/
def reconnectCooldown : Rat := 10

/-- Source constant `iconBlender = 'blender'`. -/
def iconBlender : String := "blender"

/-! ## Pid marker file (`readPidFile`, lines 138-151) -/

/-- Observable state of the pid marker file: missing (`open` raises
`FileNotFoundError`, an `OSError`), present but unreadable (`open` or
`read` raises some other `OSError`), or readable with given text. -/
inductive FileState where
  | absent
  | unreadable
  | content (text : String)
deriving Repr, DecidableEq

/-- Opening and reading the pid file: yields its text, or raises an
`OSError` when the file is absent or unreadable. -/
def openRead (fs : FileState) : Except PyExc String :=
  match fs with
  | .absent => .error .osError
  | .unreadable => .error .osError
  | .content text => .ok text

/-- Whitespace stripped by Python's `int(str)` before parsing. -/
def pyIsSpace (c : Char) : Bool :=
  c = ' ' ∨ c = '\t' ∨ c = '\n' ∨ c = '\r' ∨ c = '\x0b' ∨ c = '\x0c'

/-- Strip leading and trailing whitespace from a character list. -/
def pyStrip (cs : List Char) : List Char :=
  ((cs.dropWhile pyIsSpace).reverse.dropWhile pyIsSpace).reverse

/-- Decimal value of a digit list. -/
def digitsToNat (ds : List Char) : Nat :=
  ds.foldl (fun acc c => acc * 10 + (c.toNat - 48)) 0

/-- Python's `int(s)` on a string: optional sign and a nonempty run of
decimal digits after stripping whitespace; otherwise raises
`ValueError`. -/
def pyInt (str : String) : Except PyExc Int :=
  match pyStrip str.toList with
  | '+' :: ds =>
      if ds ≠ [] ∧ ds.all Char.isDigit then .ok (Int.ofNat (digitsToNat ds))
      else .error .valueError
  | '-' :: ds =>
      if ds ≠ [] ∧ ds.all Char.isDigit then .ok (-(Int.ofNat (digitsToNat ds)))
      else .error .valueError
  | ds =>
      if ds ≠ [] ∧ ds.all Char.isDigit then .ok (Int.ofNat (digitsToNat ds))
      else .error .valueError

/-- Body of the `try` block of `readPidFile`:
`storedPid = int(open(pidFilePath).read())`. -/
def readPidRaw (fs : FileState) : Except PyExc Int :=
  match openRead fs with
  | .error e => .error e
  | .ok text => pyInt text

/-- `readPidFile` (lines 138-151): the `try` body with `except OSError`
and `except ValueError` clauses returning `None`; any other exception
class would propagate (modelled by the `.error` case). -/
def readPidFile (fs : FileState) : Except PyExc (Option Int) :=
  match readPidRaw fs with
  | .ok n => .ok (some n)
  | .error .osError => .ok none
  | .error .valueError => .ok none
  | .error e => .error e

/-! ## connectToDiscord (lines 51-77)

The Python function retries by calling itself with `currentTry + 1`
inside the `except rpc.ConnectionTimeout` clause when `currentTry < 3`.
Control flow details mirrored here:

* `rpcConn = rpc.Presence(...)` assigns a fresh handle *before*
  `connect()` can raise, so a failed attempt leaves a fresh unconnected
  handle in `rpcConn` until a later line overwrites it;
* a success (`return` inside the `try`) keeps the new handle;
* the timeout-exhausted branch (`currentTry >= 3`) `return`s from
  inside the handler, skipping the trailing `rpcConn = None`;
* every other handler, and the code path that falls out of a handler
  after the recursive call returns, reaches the trailing
  `rpcConn = None` — so when an attempt after the first succeeds, the
  unwinding outer frames still null the global.

The recursion is bounded by the `currentTry >= 3` test.  Since in `Nat`
arithmetic `currentTry ≥ 3 ↔ 3 - currentTry = 0`, the embedding
recurses structurally on `remaining = 3 - currentTry`, which decreases
exactly when the Python recursion happens.  The result pairs the new
globals with the number of low-level connection attempts performed
(`Presence(...).connect()` calls). -/
def connectToDiscordAux (env : Nat → Option PyExc) :
    Nat → Nat → Globals → Globals × Nat
  | remaining, currentTry, s =>
    let conn : Conn := ⟨s.nextConnId⟩
    let s1 : Globals := { s with rpcConn := some conn, nextConnId := s.nextConnId + 1 }
    match env currentTry with
    | none =>
        ({ s1 with logs := s1.logs ++ [.connectedLog] }, 1)
    | some .connectionTimeout =>
        match remaining with
        | 0 =>
            ({ s1 with logs := s1.logs ++ [.connectionAbortedLog] }, 1)
        | r + 1 =>
            let s2 : Globals :=
              { s1 with logs := s1.logs ++ [.connectionFailedLog (currentTry + 1)] }
            let res := connectToDiscordAux env r (currentTry + 1) s2
            ({ res.1 with rpcConn := none }, res.2 + 1)
    | some .invalidID =>
        ({ s1 with rpcConn := none, logs := s1.logs ++ [.invalidIdLog, .issuesLinkLog] }, 1)
    | some .discordNotFound =>
        ({ s1 with rpcConn := none, logs := s1.logs ++ [.discordNotFoundLog] }, 1)
    | some .invalidPipe =>
        ({ s1 with rpcConn := none, logs := s1.logs ++ [.invalidPipeLog] }, 1)
    | some .discordError =>
        ({ s1 with rpcConn := none, logs := s1.logs ++ [.discordErrorLog] }, 1)
    | some _ =>
        ({ s1 with rpcConn := none, logs := s1.logs ++ [.unknownErrorLog] }, 1)

/-- `connectToDiscord(currentTry)`: `env i` gives the outcome of the
attempt made by the invocation whose `currentTry` is `i` (`none` =
`connect()` succeeds, `some e` = it raises `e`). -/
def connectToDiscord (env : Nat → Option PyExc) (currentTry : Nat) (s : Globals) :
    Globals × Nat :=
  connectToDiscordAux env (3 - currentTry) currentTry s

/-! ## maybeReconnect (lines 280-286) -/

/-- `maybeReconnect` with `now = time.time()` as an input.  Returns the
new globals and the number of `connectToDiscord` invocations (0 or 1). -/
def maybeReconnect (env : Nat → Option PyExc) (now : Rat) (s : Globals) :
    Globals × Nat :=
  if now - s.lastConnectAttempt < reconnectCooldown then (s, 0)
  else
    let res := connectToDiscord env 0 { s with lastConnectAttempt := now }
    (res.1, 1)

/-! ## updatePresence (lines 193-278) -/

/-- Addon preferences (`RpcPreferences`). -/
inductive RenderingDisplay where
  | displayEngine
  | displayFilename
deriving Repr, DecidableEq

structure Prefs where
  displayTime : Bool
  displayTimeRendering : Bool
  enableLogging : Bool
  renderingDisplay : RenderingDisplay
deriving Repr, DecidableEq

/-- The `RenderInfo` value object (lines 42-49). -/
structure RenderInfo where
  startTime : Rat
  renderedFrames : Nat
deriving Repr, DecidableEq

/-- `RenderInfo.isAnimation`: `renderedFrames > 0`. -/
def RenderInfo.isAnimation (r : RenderInfo) : Bool :=
  0 < r.renderedFrames

/-- Environment of one `updatePresence` call: the clock, the pid file,
the `bpy` data the helper getters read, the preferences entry, and the
outcomes of the transport sends this call may perform. -/
structure UpdateEnv where
  /-- Attempt outcomes for a `connectToDiscord` run triggered via
  `maybeReconnect` during this call. -/
  reconnectEnv : Nat → Option PyExc
  /-- `time.time()` as read by `maybeReconnect`. -/
  now : Rat
  /-- State of the pid marker file. -/
  pidFile : FileState
  /-- `os.getpid()`. -/
  myPid : Int
  /-- `bpy.context.preferences.addons.get(__name__)`: `none` when the
  addon entry is unavailable. -/
  prefs : Option Prefs
  /-- The `renderContext` global. -/
  renderContext : Option RenderInfo
  /-- The `startTime` global (`None` before `register`). -/
  startTime : Option Rat
  /-- `bpy.path.display_name_from_filepath(bpy.data.filepath)`. -/
  blendDisplayName : String
  /-- `bpy.app.version` major component. -/
  versionMajor : Nat
  /-- `bpy.app.version` minor component. -/
  versionMinor : Nat
  /-- `bpy.app.version_cycle`. -/
  versionCycle : String
  /-- `bpy.context.engine`. -/
  engineInternalName : String
  /-- `bpy.context.scene.frame_start`. -/
  frameStart : Int
  /-- `bpy.context.scene.frame_end`. -/
  frameEnd : Int
  /-- `bpy.context.scene.frame_current`. -/
  frameCurrent : Int
  /-- Outcome of `rpcConn.update(...)` if attempted (`none` = ok). -/
  sendResult : Option PyExc
  /-- Outcome of `rpcConn.clear()` if attempted (`none` = ok). -/
  clearResult : Option PyExc

/-- `getFileName` (lines 288-295): `None` when the display name is
empty (unsaved file). -/
def getFileName (env : UpdateEnv) : Option String :=
  if env.blendDisplayName = "" then none else some env.blendDisplayName

/-- `getVersionStr` (lines 297-306). -/
def getVersionStr (env : UpdateEnv) : String :=
  let verCycle :=
    if env.versionCycle = "release" then "Release"
    else if env.versionCycle = "rc" then "Release Candidate"
    else if env.versionCycle = "beta" then "Beta"
    else if env.versionCycle = "alpha" then "Alpha"
    else ""
  toString env.versionMajor ++ "." ++ toString env.versionMinor ++ " " ++ verCycle

/-- Python `str.title()` restricted to the ASCII identifiers Blender
engine names use: uppercase a letter that follows a non-letter,
lowercase a letter that follows a letter. -/
def pyTitleGo : List Char → Bool → List Char
  | [], _ => []
  | c :: rest, prevAlpha =>
      (if prevAlpha then c.toLower else c.toUpper) :: pyTitleGo rest c.isAlpha

def pyTitle (s : String) : String :=
  String.mk (pyTitleGo s.toList false)

/-- `getRenderEngineStr` (lines 308-312). -/
def getRenderEngineStr (env : UpdateEnv) : String :=
  pyTitle ((env.engineInternalName.replace "BLENDER_" "").replace "_" " ")

/-- `getFrameRange` (lines 314-319). -/
def getFrameRange (env : UpdateEnv) : Int × Int :=
  (env.frameCurrent - env.frameStart + 1, env.frameEnd - env.frameStart + 1)

/-- The keyword arguments `updatePresence` passes to
`rpcConn.update(...)` (lines 265-272). -/
structure Payload where
  pid : Int
  start : Option Rat
  state : Option String
  details : String
  large_image : String
  large_text : String
deriving Repr, DecidableEq

/-- A transport send attempted by `updatePresence`: a presence update
frame with its payload, or a `clear()`. -/
inductive Send where
  | update (p : Payload)
  | clear
deriving Repr, DecidableEq

/-- How an `updatePresence` call ends: a normal return, or an uncaught
exception propagating to the caller. -/
inductive UpdateOutcome where
  | returned
  | raised (e : PyExc)
deriving Repr, DecidableEq

/-- Result of one `updatePresence` call: final globals, the transport
sends attempted in order, how the call ended, and whether
`writePidFileAtomic` ran. -/
structure UpdateResult where
  st : Globals
  sends : List Send
  outcome : UpdateOutcome
  wrotePidFile : Bool
deriving Repr, DecidableEq

/-- Lines 231-272 of `updatePresence`: compute `activityDescription`,
`activityState`, `fStartTime`, the large icon fields, and assemble the
keyword arguments of `rpcConn.update`. -/
def buildPayload (env : UpdateEnv) (prefs : Prefs) : Payload :=
  match env.renderContext with
  | some rc =>
      let activityDescription :=
        match prefs.renderingDisplay, getFileName env with
        | RenderingDisplay.displayFilename, some n => "Rendering " ++ n
        | _, _ => "Rendering in " ++ getRenderEngineStr env
      let activityState :=
        if rc.isAnimation then
          "Frame " ++ toString (getFrameRange env).1 ++ " of " ++
            toString (getFrameRange env).2
        else "Single Frame"
      let fStartTime := if prefs.displayTimeRendering then some rc.startTime else none
      { pid := env.myPid, start := fStartTime, state := some activityState,
        details := activityDescription, large_image := iconBlender,
        large_text := getVersionStr env }
  | none =>
      let activityState := getFileName env
      let activityDescription :=
        match activityState with
        | none => "Editing an unsaved file"
        | some _ => "Editing a project"
      let fStartTime := if prefs.displayTime then env.startTime else none
      { pid := env.myPid, start := fStartTime, state := activityState,
        details := activityDescription, large_image := iconBlender,
        large_text := getVersionStr env }

/-- Lines 226-278 of `updatePresence`: preferences lookup, payload
assembly, and the guarded `rpcConn.update(...)` whose handlers log and
then call an unguarded `rpcConn.clear()` (so a clear failure
propagates).  `wrote` records whether the preceding pid-file check ran
`writePidFileAtomic` (pid file was absent). -/
def updatePresenceAfterPid (env : UpdateEnv) (s : Globals) (wrote : Bool) :
    UpdateResult :=
  match env.prefs with
  | none => { st := s, sends := [], outcome := .returned, wrotePidFile := wrote }
  | some prefs =>
    let p := buildPayload env prefs
    match env.sendResult with
    | none =>
        { st := s, sends := [.update p], outcome := .returned, wrotePidFile := wrote }
    | some e =>
        let tag : LogEvent :=
          if e = .discordError then .updateFailedLog else .updateUnknownErrorLog
        let s2 : Globals := { s with logs := s.logs ++ [tag] }
        match env.clearResult with
        | none =>
            { st := s2, sends := [.update p, .clear], outcome := .returned,
              wrotePidFile := wrote }
        | some e2 =>
            { st := s2, sends := [.update p, .clear], outcome := .raised e2,
              wrotePidFile := wrote }

/-- Lines 218-278 of `updatePresence`, entered with `rpcConn` known to
be non-`None`.  Mirrors the source order: pid-file competition check
(with an unguarded `rpcConn.clear()` whose failure propagates when a
different pid owns the marker), then `updatePresenceAfterPid`. -/
def updatePresenceBody (env : UpdateEnv) (s : Globals) : UpdateResult :=
  match readPidFile env.pidFile with
  | .error e => { st := s, sends := [], outcome := .raised e, wrotePidFile := false }
  | .ok readPid =>
    match readPid with
    | some p =>
      if p = env.myPid then updatePresenceAfterPid env s false
      else
        match env.clearResult with
        | none => { st := s, sends := [.clear], outcome := .returned, wrotePidFile := false }
        | some e => { st := s, sends := [.clear], outcome := .raised e, wrotePidFile := false }
    | none => updatePresenceAfterPid env s true

/-- `updatePresence` (lines 193-278).  The pre-check of lines 214-217:
when `rpcConn` is `None`, run `maybeReconnect` and return if it is
still `None`; otherwise fall through to the body. -/
def updatePresence (env : UpdateEnv) (s : Globals) : UpdateResult :=
  match s.rpcConn with
  | none =>
      let s1 := (maybeReconnect env.reconnectEnv env.now s).1
      match s1.rpcConn with
      | none => { st := s1, sends := [], outcome := .returned, wrotePidFile := false }
      | some _ => updatePresenceBody env s1
  | some _ => updatePresenceBody env s

/-! ## Shared lemmas -/

/-- `pyInt` raises only `ValueError`. -/
theorem pyInt_error_eq (s : String) (e : PyExc) (h : pyInt s = .error e) :
    e = PyExc.valueError := by
  unfold pyInt at h
  split at h <;> split at h <;> simp_all

/-- `readPidFile` never lets an exception escape: the kinds its `try`
body can raise (`OSError`, `ValueError`) are exactly the ones caught. -/
theorem readPidFile_isOk (fs : FileState) : ∃ r, readPidFile fs = .ok r := by
  cases fs with
  | absent => exact ⟨none, rfl⟩
  | unreadable => exact ⟨none, rfl⟩
  | content text =>
      cases h : pyInt text with
      | ok n => exact ⟨some n, by simp [readPidFile, readPidRaw, openRead, h]⟩
      | error e =>
          have he := pyInt_error_eq text e h
          subst he
          exact ⟨none, by simp [readPidFile, readPidRaw, openRead, h]⟩

/-- `connectToDiscordAux` never touches `lastConnectAttempt`. -/
theorem connectToDiscordAux_lastConnectAttempt (env : Nat → Option PyExc) :
    ∀ (remaining currentTry : Nat) (s : Globals),
      (connectToDiscordAux env remaining currentTry s).1.lastConnectAttempt =
        s.lastConnectAttempt := by
  intro remaining
  induction remaining with
  | zero =>
      intro t s
      rcases h : env t with _ | e
      · simp [connectToDiscordAux, h]
      · cases e <;> simp [connectToDiscordAux, h]
  | succ r ih =>
      intro t s
      rcases h : env t with _ | e
      · simp [connectToDiscordAux, h]
      · cases e <;> simp [connectToDiscordAux, h, ih]

/-! ## Shared concrete inputs for witnesses and counterexamples -/

/-- Fresh-start globals (module import state: no connection, counter 0,
`lastConnectAttempt = 0.0`). -/
def st0 : Globals := { rpcConn := none, nextConnId := 0, lastConnectAttempt := 0, logs := [] }

/-- Globals of a connected client holding handle 0. -/
def stConn : Globals :=
  { rpcConn := some ⟨0⟩, nextConnId := 1, lastConnectAttempt := 0, logs := [] }

/-- A benign concrete update environment: connected clock, pid file
owned by this process (pid 7), preferences available, not rendering,
saved file named `scene`, all sends succeeding. -/
def baseEnv : UpdateEnv :=
  { reconnectEnv := fun _ => none
    now := 0
    pidFile := FileState.content "7"
    myPid := 7
    prefs := some { displayTime := true, displayTimeRendering := true,
                    enableLogging := false,
                    renderingDisplay := RenderingDisplay.displayEngine }
    renderContext := none
    startTime := some 5
    blendDisplayName := "scene"
    versionMajor := 4
    versionMinor := 2
    versionCycle := "release"
    engineInternalName := "BLENDER_EEVEE_NEXT"
    frameStart := 1
    frameEnd := 10
    frameCurrent := 3
    sendResult := none
    clearResult := none }

/-! ## Claim theorems -/

/-- C9: reading the instance-marker file is total and never raises: for
every file state — absent, unreadable, or containing non-integer
content — `readPidFile` returns absent (`none`), and it returns the
stored integer pid exactly when the file contains a parseable
integer. -/
theorem c9_readPidFile_total (fs : FileState) :
    (∃ r, readPidFile fs = .ok r) ∧
    (∀ n : Int, readPidFile fs = .ok (some n) ↔
      ∃ text, fs = .content text ∧ pyInt text = .ok n) := by
  refine ⟨readPidFile_isOk fs, fun n => ?_⟩
  cases fs with
  | absent => simp [readPidFile, readPidRaw, openRead]
  | unreadable => simp [readPidFile, readPidRaw, openRead]
  | content text =>
      cases h : pyInt text with
      | ok m =>
          simp only [readPidFile, readPidRaw, openRead, h]
          constructor
          · intro hm
            have hmn : m = n := Option.some.inj (Except.ok.inj hm)
            exact ⟨text, rfl, by rw [h, hmn]⟩
          · rintro ⟨t2, ht2, hp⟩
            cases ht2
            rw [h] at hp
            rw [Except.ok.inj hp]
      | error e =>
          have he := pyInt_error_eq text e h
          subst he
          simp only [readPidFile, readPidRaw, openRead, h]
          constructor
          · intro hm
            simp at hm
          · rintro ⟨t2, ht2, hp⟩
            cases ht2
            rw [h] at hp
            exact absurd hp (by simp)

/-- C10: if the addon's preferences entry is unavailable at the time of
an `updatePresence` call, the call returns silently without sending any
frame and leaves the globals unchanged, even when the client is
connected and owns the instance marker. -/
theorem c10_no_prefs_silent (env : UpdateEnv) (s : Globals) (c : Conn)
    (hconn : s.rpcConn = some c)
    (hpid : readPidFile env.pidFile = .ok (some env.myPid))
    (hprefs : env.prefs = none) :
    (updatePresence env s).sends = [] ∧
    (updatePresence env s).outcome = .returned ∧
    (updatePresence env s).st = s := by
  simp [updatePresence, hconn, updatePresenceBody, hpid, updatePresenceAfterPid, hprefs]

/-- Concrete environment for the C10 witness: preferences entry
absent, everything else benign. -/
def envC10 : UpdateEnv := { baseEnv with prefs := none }

/-- Witness for C10: connected state `stConn`, marker owned by pid 7,
preferences entry absent. -/
theorem c10_witness :
    stConn.rpcConn = some ⟨0⟩ ∧
    readPidFile envC10.pidFile = .ok (some envC10.myPid) ∧
    envC10.prefs = none ∧
    ((updatePresence envC10 stConn).sends = [] ∧
     (updatePresence envC10 stConn).outcome = .returned ∧
     (updatePresence envC10 stConn).st = stConn) :=
  ⟨rfl, rfl, rfl, c10_no_prefs_silent envC10 stConn ⟨0⟩ rfl rfl rfl⟩

/-- C6: for every `updatePresence` call in which the instance marker
holds a pid different from this process's pid, the client attempts a
clear-equivalent frame and returns without sending a presence frame,
and the globals (connection handle included) are unchanged by the
call; the return is a normal one whenever the clear send goes
through. -/
theorem c6_foreign_marker_clear (env : UpdateEnv) (s : Globals) (c : Conn) (p : Int)
    (hconn : s.rpcConn = some c)
    (hpid : readPidFile env.pidFile = .ok (some p))
    (hne : p ≠ env.myPid) :
    (updatePresence env s).sends = [Send.clear] ∧
    (updatePresence env s).st = s ∧
    (env.clearResult = none → (updatePresence env s).outcome = .returned) := by
  simp only [updatePresence, hconn, updatePresenceBody, hpid]
  rw [if_neg hne]
  cases h : env.clearResult <;> simp [h]

/-- Concrete environment for the C6 witness: the marker file stores
pid 99 while this process is pid 7. -/
def envC6 : UpdateEnv := { baseEnv with pidFile := FileState.content "99" }

/-- Witness for C6: marker owned by pid 99, our pid 7, connected with
handle 0; the call attempts exactly one clear and changes nothing. -/
theorem c6_witness :
    stConn.rpcConn = some ⟨0⟩ ∧
    readPidFile envC6.pidFile = .ok (some 99) ∧
    (99 : Int) ≠ envC6.myPid ∧
    ((updatePresence envC6 stConn).sends = [Send.clear] ∧
     (updatePresence envC6 stConn).st = stConn ∧
     (envC6.clearResult = none → (updatePresence envC6 stConn).outcome = .returned)) :=
  ⟨rfl, rfl, by decide,
    c6_foreign_marker_clear envC6 stConn ⟨0⟩ 99 rfl rfl (by decide)⟩

/-- C8: every successful presence update sends one frame whose payload
carries the `pid`, `start`, `state`, `details`, `large_image` and
`large_text` keyword arguments; in the non-rendering case with a saved
file, `details` is `"Editing a project"` and `state` is the file name,
and after a successful send the connection handle is unchanged (still
`Ready`). -/
theorem c8_update_payload (env : UpdateEnv) (s : Globals) (c : Conn) (prefs : Prefs)
    (hconn : s.rpcConn = some c)
    (hpid : readPidFile env.pidFile = .ok (some env.myPid))
    (hprefs : env.prefs = some prefs)
    (hrc : env.renderContext = none)
    (hname : ¬ env.blendDisplayName = "")
    (hsend : env.sendResult = none) :
    (updatePresence env s).sends = [Send.update
      { pid := env.myPid
        start := if prefs.displayTime then env.startTime else none
        state := some env.blendDisplayName
        details := "Editing a project"
        large_image := "blender"
        large_text := getVersionStr env }] ∧
    (updatePresence env s).outcome = .returned ∧
    (updatePresence env s).st.rpcConn = some c := by
  simp only [updatePresence, hconn, updatePresenceBody, hpid, updatePresenceAfterPid,
             hprefs, hsend, buildPayload, hrc, getFileName, if_neg hname]
  simp [iconBlender, hconn]

/-- Witness for C8 at the benign environment: non-rendering, saved
file `scene`, send succeeds; the single frame carries all six keys. -/
theorem c8_witness :
    stConn.rpcConn = some ⟨0⟩ ∧
    readPidFile baseEnv.pidFile = .ok (some baseEnv.myPid) ∧
    baseEnv.renderContext = none ∧
    ¬ baseEnv.blendDisplayName = "" ∧
    baseEnv.sendResult = none ∧
    ((updatePresence baseEnv stConn).sends = [Send.update
      { pid := 7, start := some 5, state := some "scene",
        details := "Editing a project", large_image := "blender",
        large_text := "4.2 Release" }] ∧
     (updatePresence baseEnv stConn).outcome = .returned ∧
     (updatePresence baseEnv stConn).st.rpcConn = some ⟨0⟩) := by
  refine ⟨rfl, rfl, rfl, by decide, rfl, ?_⟩
  have h := c8_update_payload baseEnv stConn ⟨0⟩
    { displayTime := true, displayTimeRendering := true, enableLogging := false,
      renderingDisplay := RenderingDisplay.displayEngine }
    rfl rfl rfl rfl (by decide) rfl
  simpa using h

/-- Concrete environment where the presence send fails and the
best-effort clear also fails. -/
def envC1 : UpdateEnv :=
  { baseEnv with sendResult := some PyExc.discordError,
                 clearResult := some PyExc.otherError }

/-- C1 counterexample: an `updatePresence` execution whose transport
send fails (`DiscordError`).  The claim says the best-effort clear's
own failure is swallowed and the call returns normally; in the code the
`rpcConn.clear()` inside the `except` handler is unguarded, so when the
clear also fails the exception escapes `updatePresence`. -/
theorem c1_counterexample :
    envC1.sendResult = some PyExc.discordError ∧
    (updatePresence envC1 stConn).outcome = UpdateOutcome.raised PyExc.otherError ∧
    UpdateOutcome.raised PyExc.otherError ≠ UpdateOutcome.returned := by decide

/-- C1 (amended): for every `updatePresence` execution in which the
transport send fails, the operation logs and attempts a best-effort
clear on the same handle; if that clear send succeeds the call returns
normally without raising, but if the clear itself fails its exception
escapes `updatePresence` (it is not swallowed). -/
theorem c1_amended_update_failure (env : UpdateEnv) (s : Globals) (c : Conn)
    (prefs : Prefs) (e : PyExc)
    (hconn : s.rpcConn = some c)
    (hpid : readPidFile env.pidFile = .ok (some env.myPid))
    (hprefs : env.prefs = some prefs)
    (hsend : env.sendResult = some e) :
    (updatePresence env s).sends = [Send.update (buildPayload env prefs), Send.clear] ∧
    (updatePresence env s).st.logs = s.logs ++
      [if e = PyExc.discordError then LogEvent.updateFailedLog
       else LogEvent.updateUnknownErrorLog] ∧
    (env.clearResult = none → (updatePresence env s).outcome = .returned) ∧
    (∀ e2, env.clearResult = some e2 →
      (updatePresence env s).outcome = .raised e2) := by
  simp only [updatePresence, hconn, updatePresenceBody, hpid, updatePresenceAfterPid,
             hprefs, hsend]
  cases h : env.clearResult <;> simp [h]

/-- Concrete environment where the send fails but the clear succeeds. -/
def envC1W : UpdateEnv := { baseEnv with sendResult := some PyExc.discordError }

/-- Witness for the amended C1: send fails with `DiscordError`, the
clear succeeds, the call logs and returns normally. -/
theorem c1_amended_witness :
    stConn.rpcConn = some ⟨0⟩ ∧
    readPidFile envC1W.pidFile = .ok (some envC1W.myPid) ∧
    envC1W.sendResult = some PyExc.discordError ∧
    ((updatePresence envC1W stConn).sends =
        [Send.update (buildPayload envC1W
          { displayTime := true, displayTimeRendering := true, enableLogging := false,
            renderingDisplay := RenderingDisplay.displayEngine }), Send.clear] ∧
     (updatePresence envC1W stConn).st.logs =
        stConn.logs ++ [LogEvent.updateFailedLog] ∧
     (envC1W.clearResult = none → (updatePresence envC1W stConn).outcome = .returned) ∧
     (∀ e2, envC1W.clearResult = some e2 →
        (updatePresence envC1W stConn).outcome = .raised e2)) := by
  refine ⟨rfl, rfl, rfl, ?_⟩
  have h := c1_amended_update_failure envC1W stConn ⟨0⟩
    { displayTime := true, displayTimeRendering := true, enableLogging := false,
      renderingDisplay := RenderingDisplay.displayEngine }
    PyExc.discordError rfl rfl rfl rfl
  simpa using h

/-- Concrete environment where the send fails and the clear succeeds,
for observing what happens to the connection handle. -/
def envC4 : UpdateEnv := { baseEnv with sendResult := some PyExc.discordError }

/-- C4 counterexample: after an `updatePresence` whose send fails, the
connection handle is *not* abandoned — the globals still hold the very
same handle 0, and the next `updatePresence` call reuses that session
and sends on it itself, with no intervening `connect()`. -/
theorem c4_counterexample :
    envC4.sendResult = some PyExc.discordError ∧
    (updatePresence envC4 stConn).st.rpcConn = some ⟨0⟩ ∧
    (updatePresence baseEnv (updatePresence envC4 stConn).st).sends =
      [Send.update { pid := 7, start := some 5, state := some "scene",
                     details := "Editing a project", large_image := "blender",
                     large_text := "4.2 Release" }] := by decide

/-- C4 (amended): for every `updatePresence` call in which the send
fails, the operation logs and attempts a clear but *retains* the same
connection handle (it is never set to `None`), and it does not retry
the presence send within the call (exactly one presence frame is
attempted); because the handle survives, later `updatePresence` calls
reuse the same session directly instead of resuming through
`connect()`. -/
theorem c4_amended_handle_retained (env : UpdateEnv) (s : Globals) (c : Conn)
    (prefs : Prefs) (e : PyExc)
    (hconn : s.rpcConn = some c)
    (hpid : readPidFile env.pidFile = .ok (some env.myPid))
    (hprefs : env.prefs = some prefs)
    (hsend : env.sendResult = some e) :
    (updatePresence env s).st.rpcConn = some c ∧
    (updatePresence env s).sends =
      [Send.update (buildPayload env prefs), Send.clear] := by
  simp only [updatePresence, hconn, updatePresenceBody, hpid, updatePresenceAfterPid,
             hprefs, hsend]
  cases h : env.clearResult <;> simp [h, hconn]

/-- Witness for the amended C4 at the concrete failing environment. -/
theorem c4_amended_witness :
    stConn.rpcConn = some ⟨0⟩ ∧
    readPidFile envC4.pidFile = .ok (some envC4.myPid) ∧
    envC4.sendResult = some PyExc.discordError ∧
    ((updatePresence envC4 stConn).st.rpcConn = some ⟨0⟩ ∧
     (updatePresence envC4 stConn).sends =
       [Send.update (buildPayload envC4
         { displayTime := true, displayTimeRendering := true, enableLogging := false,
           renderingDisplay := RenderingDisplay.displayEngine }), Send.clear]) :=
  ⟨rfl, rfl, rfl,
    c4_amended_handle_retained envC4 stConn ⟨0⟩
      { displayTime := true, displayTimeRendering := true, enableLogging := false,
        renderingDisplay := RenderingDisplay.displayEngine }
      PyExc.discordError rfl rfl rfl rfl⟩

/-- C2 counterexample: with the peer channel absent (every attempt
raising `DiscordNotFound`), `connectToDiscord` performs exactly one
attempt — zero retries — not the claimed initial attempt plus exactly
3 retries (which would be 4 attempts). -/
theorem c2_counterexample :
    (connectToDiscord (fun _ => some PyExc.discordNotFound) 0 st0).2 = 1 ∧
    (1 : Nat) ≠ 1 + 3 := by decide

/-- C2 (amended): when the peer channel is absent (`DiscordNotFound`),
`connectToDiscord` aborts after the single initial attempt with no
retries (the 3-retry bound applies only to the timeout class), and it
leaves the client disconnected (`rpcConn = None`); every
`updatePresence` call made while disconnected, whose cooldown-gated
reconnect attempt also finds the peer absent, returns silently without
sending anything. -/
theorem c2_amended_absent_aborts (env : Nat → Option PyExc) (s : Globals)
    (uenv : UpdateEnv) (t : Globals)
    (henv : env 0 = some PyExc.discordNotFound)
    (hu : uenv.reconnectEnv 0 = some PyExc.discordNotFound)
    (ht : t.rpcConn = none) :
    (connectToDiscord env 0 s).2 = 1 ∧
    (connectToDiscord env 0 s).1.rpcConn = none ∧
    (updatePresence uenv t).sends = [] ∧
    (updatePresence uenv t).outcome = .returned := by
  refine ⟨?_, ?_, ?_⟩
  · simp [connectToDiscord, connectToDiscordAux, henv]
  · simp [connectToDiscord, connectToDiscordAux, henv]
  · have hrc : ((maybeReconnect uenv.reconnectEnv uenv.now t).1).rpcConn = none := by
      by_cases hg : uenv.now - t.lastConnectAttempt < reconnectCooldown
      · simp [maybeReconnect, if_pos hg, ht]
      · simp [maybeReconnect, if_neg hg, connectToDiscord, connectToDiscordAux, hu]
    simp [updatePresence, ht, hrc]

/-- Concrete peer-absent environment for the C2 witness: disconnected
state, reconnect cooldown already elapsed, every attempt raising
`DiscordNotFound`. -/
def envC2 : UpdateEnv :=
  { baseEnv with reconnectEnv := fun _ => some PyExc.discordNotFound, now := 100 }

/-- Witness for the amended C2 at concrete inputs. -/
theorem c2_amended_witness :
    ((fun _ => some PyExc.discordNotFound) : Nat → Option PyExc) 0 =
      some PyExc.discordNotFound ∧
    envC2.reconnectEnv 0 = some PyExc.discordNotFound ∧
    st0.rpcConn = none ∧
    ((connectToDiscord (fun _ => some PyExc.discordNotFound) 0 st0).2 = 1 ∧
     (connectToDiscord (fun _ => some PyExc.discordNotFound) 0 st0).1.rpcConn = none ∧
     (updatePresence envC2 st0).sends = [] ∧
     (updatePresence envC2 st0).outcome = .returned) :=
  ⟨rfl, rfl, rfl,
    c2_amended_absent_aborts (fun _ => some PyExc.discordNotFound) st0 envC2 st0
      rfl rfl rfl⟩

/-- C5 counterexample: a peer-not-found failure is not retried at all —
`connectToDiscord` stops after a single attempt instead of retrying up
to the bound of 3. -/
theorem c5_counterexample :
    (connectToDiscord (fun _ => some PyExc.discordNotFound) 0
      { rpcConn := none, nextConnId := 5, lastConnectAttempt := 0, logs := [] }).2 = 1 ∧
    ¬ (1 : Nat) > 1 := by decide

/-- C5 (amended): `connectToDiscord` classifies failures by kind, but
only the timeout class is retried — by immediate recursion, up to 3
retries (4 attempts total), after which it stops; a peer-not-found
failure, like the invalid-identifier and invalid-pipe classes and every
other failure kind, aborts immediately after a single attempt with no
retry, leaving the client disconnected. -/
theorem c5_amended_retry_classes (envT envA : Nat → Option PyExc) (e : PyExc)
    (s t : Globals)
    (hT : ∀ i, envT i = some PyExc.connectionTimeout)
    (hA : envA 0 = some e)
    (he : e ≠ PyExc.connectionTimeout) :
    (connectToDiscord envT 0 s).2 = 1 + 3 ∧
    (connectToDiscord envT 0 s).1.rpcConn = none ∧
    (connectToDiscord envA 0 t).2 = 1 ∧
    (connectToDiscord envA 0 t).1.rpcConn = none := by
  refine ⟨?_, ?_, ?_, ?_⟩
  · simp [connectToDiscord, connectToDiscordAux, hT]
  · simp [connectToDiscord, connectToDiscordAux, hT]
  · cases e <;> simp_all [connectToDiscord, connectToDiscordAux]
  · cases e <;> simp_all [connectToDiscord, connectToDiscordAux]

/-- Witness for the amended C5: all-timeout attempts versus a single
`DiscordNotFound` attempt, from concrete start states. -/
theorem c5_amended_witness :
    (∀ i : Nat, ((fun _ => some PyExc.connectionTimeout) : Nat → Option PyExc) i =
      some PyExc.connectionTimeout) ∧
    ((fun _ => some PyExc.discordNotFound) : Nat → Option PyExc) 0 =
      some PyExc.discordNotFound ∧
    PyExc.discordNotFound ≠ PyExc.connectionTimeout ∧
    ((connectToDiscord (fun _ => some PyExc.connectionTimeout) 0 st0).2 = 1 + 3 ∧
     (connectToDiscord (fun _ => some PyExc.connectionTimeout) 0 st0).1.rpcConn = none ∧
     (connectToDiscord (fun _ => some PyExc.discordNotFound) 0 stConn).2 = 1 ∧
     (connectToDiscord (fun _ => some PyExc.discordNotFound) 0 stConn).1.rpcConn = none) :=
  ⟨fun _ => rfl, rfl, by decide,
    c5_amended_retry_classes (fun _ => some PyExc.connectionTimeout)
      (fun _ => some PyExc.discordNotFound) PyExc.discordNotFound st0 stConn
      (fun _ => rfl) rfl (by decide)⟩

/-- Globals after a connect attempt recorded at time 1000. -/
def stC3 : Globals :=
  { rpcConn := none, nextConnId := 0, lastConnectAttempt := 1000, logs := [] }

/-- C3 counterexample: two `maybeReconnect` calls at t1 = 1005 and
t2 = 1009 — within the cooldown of each other — when a previous
attempt was recorded at t = 1000.  Both calls are gated, so zero
`connectToDiscord` invocations happen, not the claimed exactly one. -/
theorem c3_counterexample :
    ((1009 : Rat) - 1005 < reconnectCooldown) ∧
    (maybeReconnect (fun _ => none) 1005 stC3).2 = 0 ∧
    (maybeReconnect (fun _ => none) 1009 (maybeReconnect (fun _ => none) 1005 stC3).1).2 = 0 ∧
    (0 + 0 : Nat) ≠ 1 := by
  have hg1 : (1005 : Rat) - stC3.lastConnectAttempt < reconnectCooldown := by
    norm_num [stC3, reconnectCooldown]
  have h1 : maybeReconnect (fun _ => none) 1005 stC3 = (stC3, 0) := by
    unfold maybeReconnect
    rw [if_pos hg1]
  have hg2 : (1009 : Rat) - stC3.lastConnectAttempt < reconnectCooldown := by
    norm_num [stC3, reconnectCooldown]
  have h2 : maybeReconnect (fun _ => none) 1009 stC3 = (stC3, 0) := by
    unfold maybeReconnect
    rw [if_pos hg2]
  refine ⟨by norm_num [reconnectCooldown], by rw [h1], ?_, by decide⟩
  rw [h1, h2]

/-- C3 (amended): for every pair of calls `maybeReconnect t1` then
`maybeReconnect t2` with `t2 - t1 < cooldownSeconds`, *at most* one
`connectToDiscord` invocation is made; when the first call is not
itself gated (`t1 - lastAttemptTimestamp ≥ cooldownSeconds`), exactly
one invocation is made — by the first call, which records `t1` as the
new `lastAttemptTimestamp` before invoking `connectToDiscord` (which
never changes it) — and the second call is a no-op.  Two calls that
both fall inside the cooldown of an earlier attempt make zero
invocations. -/
theorem c3_amended_cooldown (env1 env2 : Nat → Option PyExc) (s : Globals)
    (t1 t2 : Rat)
    (hlt : t2 - t1 < reconnectCooldown) :
    (maybeReconnect env1 t1 s).2 +
      (maybeReconnect env2 t2 (maybeReconnect env1 t1 s).1).2 ≤ 1 ∧
    (reconnectCooldown ≤ t1 - s.lastConnectAttempt →
      (maybeReconnect env1 t1 s).2 = 1 ∧
      (maybeReconnect env2 t2 (maybeReconnect env1 t1 s).1).2 = 0 ∧
      (maybeReconnect env1 t1 s).1.lastConnectAttempt = t1) := by
  by_cases hg : t1 - s.lastConnectAttempt < reconnectCooldown
  · constructor
    · by_cases hg2 : t2 - s.lastConnectAttempt < reconnectCooldown <;>
        simp [maybeReconnect, if_pos hg, hg2]
    · intro hge
      exact absurd hg (not_lt.mpr hge)
  · have hlast : (maybeReconnect env1 t1 s).1.lastConnectAttempt = t1 := by
      simp only [maybeReconnect, if_neg hg, connectToDiscord]
      exact connectToDiscordAux_lastConnectAttempt env1 3 0 _
    have h1 : (maybeReconnect env1 t1 s).2 = 1 := by
      simp [maybeReconnect, if_neg hg]
    have h2 : (maybeReconnect env2 t2 (maybeReconnect env1 t1 s).1).2 = 0 := by
      generalize hgen : (maybeReconnect env1 t1 s).1 = s1 at hlast ⊢
      unfold maybeReconnect
      rw [hlast, if_pos hlt]
    exact ⟨by rw [h1, h2], fun _ => ⟨h1, h2, hlast⟩⟩

/-- Witness for the amended C3: previous attempt at t = 0, calls at
t1 = 100 (non-gated) and t2 = 105 (gated). -/
theorem c3_amended_witness :
    ((105 : Rat) - 100 < reconnectCooldown) ∧
    ((maybeReconnect (fun _ => none) 100 st0).2 +
       (maybeReconnect (fun _ => none) 105 (maybeReconnect (fun _ => none) 100 st0).1).2 ≤ 1 ∧
     (reconnectCooldown ≤ (100 : Rat) - st0.lastConnectAttempt →
       (maybeReconnect (fun _ => none) 100 st0).2 = 1 ∧
       (maybeReconnect (fun _ => none) 105 (maybeReconnect (fun _ => none) 100 st0).1).2 = 0 ∧
       (maybeReconnect (fun _ => none) 100 st0).1.lastConnectAttempt = 100)) :=
  ⟨by norm_num [reconnectCooldown],
    c3_amended_cooldown (fun _ => none) (fun _ => none) st0 100 105
      (by norm_num [reconnectCooldown])⟩

/-- Globals of a client already connected with handle 0 and the
allocation counter at 1. -/
def stC7 : Globals :=
  { rpcConn := some ⟨0⟩, nextConnId := 1, lastConnectAttempt := 0, logs := [] }

/-- C7 counterexample: calling `connectToDiscord` while the client
already holds live handle 0 allocates a fresh handle 1 and installs it
in place of handle 0 — the live connection handle is replaced, not
preserved. -/
theorem c7_counterexample :
    stC7.rpcConn = some ⟨0⟩ ∧
    (connectToDiscord (fun _ => none) 0 stC7).1.rpcConn = some ⟨1⟩ ∧
    (some (Conn.mk 1) : Option Conn) ≠ some (Conn.mk 0) := by decide

/-- C7 (amended): `connectToDiscord` issued while the client is already
connected is neither an idempotent no-op nor an explicit reject: it
unconditionally allocates a fresh session.  On a first-attempt success
the fresh handle replaces the live one (which is dropped without being
closed); on a failed attempt the live handle is likewise dropped,
leaving the client disconnected.  The existing session is never
preserved. -/
theorem c7_amended_connect_replaces (env envF : Nat → Option PyExc)
    (s : Globals) (c : Conn)
    (hconn : s.rpcConn = some c)
    (hid : c.id < s.nextConnId)
    (hsucc : env 0 = none)
    (hfail : envF 0 = some PyExc.discordNotFound) :
    (connectToDiscord env 0 s).1.rpcConn = some ⟨s.nextConnId⟩ ∧
    (some (Conn.mk s.nextConnId) : Option Conn) ≠ some c ∧
    (connectToDiscord envF 0 s).1.rpcConn = none := by
  refine ⟨?_, ?_, ?_⟩
  · simp [connectToDiscord, connectToDiscordAux, hsucc]
  · intro hcontra
    have hc : Conn.mk s.nextConnId = c := Option.some.inj hcontra
    have : s.nextConnId = c.id := congrArg Conn.id hc
    omega
  · simp [connectToDiscord, connectToDiscordAux, hfail]

/-- Witness for the amended C7: connected with handle 0, counter 1; a
successful reconnect installs handle 1; a failed one leaves `None`. -/
theorem c7_amended_witness :
    stC7.rpcConn = some ⟨0⟩ ∧
    (0 : Nat) < stC7.nextConnId ∧
    ((connectToDiscord (fun _ => none) 0 stC7).1.rpcConn = some ⟨stC7.nextConnId⟩ ∧
     (some (Conn.mk stC7.nextConnId) : Option Conn) ≠ some ⟨0⟩ ∧
     (connectToDiscord (fun _ => some PyExc.discordNotFound) 0 stC7).1.rpcConn = none) :=
  ⟨rfl, by decide,
    c7_amended_connect_replaces (fun _ => none) (fun _ => some PyExc.discordNotFound)
      stC7 ⟨0⟩ rfl (by decide) rfl rfl⟩
